import Mathlib

/-!
Verification of the realtime cascade state-synchronization layer of
`justKMM/supply-chainer` (frontend).

The definitions below are shallow embeddings of the TypeScript source:

* `src/frontend/src/state/cascadeStore.tsx` — the cascade store
  (`appendMessage`, `writeStorage`, `readStorage`, rehydration effect,
  `onStorage` handler, reconnect effect, `connectStream`);
* `src/frontend/src/pages/Dashboard.tsx` — `handleTrigger` and the
  progress-poll effect;
* `src/frontend/src/api/client.ts` — `subscribeToStream` frame handling;
* `src/unnamed/part_008` (the legacy App component) — `handleTrigger`,
  `startPolling` and `loadReport`.

JavaScript numbers that only ever hold integral values in those code paths
are modelled as `Int`; JSON round-tripping of the plain record types is
modelled as the identity on their structured values.
-/

namespace SupplyChainer

/-- Constant `MAX_MESSAGES` from `cascadeStore.tsx` line 36. -/
def MAX_MESSAGES : Nat := 120

/-- Constant `STORAGE_KEY` from `cascadeStore.tsx` line 35. -/
def STORAGE_KEY : String := "supply-chainer:cascade-state"

/-- Type `LiveMessage` from `src/frontend/src/data/types.ts`. -/
structure LiveMessage where
  message_id : String
  timestamp : String
  from_id : String
  from_label : String
  to_id : String
  to_label : String
  type : String
  summary : String
  detail : String
  color : Option String
  icon : Option String
deriving DecidableEq, Repr

/-- Type `CascadeProgress` from `src/frontend/src/data/types.ts`:
`{ running: boolean; progress: number }`. -/
structure CascadeProgress where
  running : Bool
  progress : Int
deriving DecidableEq, Repr

/-- Type `CascadeReport` is treated as an opaque blob by the synchronization
layer (it is only stored and forwarded whole), so it is embedded as an
opaque serialized payload. -/
structure CascadeReport where
  data : String
deriving DecidableEq, Repr

/-- Type `ControlsState` from `cascadeStore.tsx` lines 13-18. -/
structure ControlsState where
  productId : String
  quantity : Int
  budgetEur : Int
  desiredDeliveryDate : String
deriving DecidableEq, Repr

/-- The observable state owned by `CascadeProvider` in `cascadeStore.tsx`
(the `useState` hooks for `progress`, `report`, `messages`, `connected`,
`controls`). -/
structure StoreState where
  progress : CascadeProgress
  report : Option CascadeReport
  messages : List LiveMessage
  connected : Bool
  controls : ControlsState
deriving DecidableEq, Repr

/-- The initial state of `CascadeProvider` (`useState` initializers,
`cascadeStore.tsx` lines 74-84).  The default `desiredDeliveryDate` is
computed from the current clock, so it is a parameter here. -/
def initialState (initialDeliveryDate : String) : StoreState :=
  { progress := { running := false, progress := 0 }
    report := none
    messages := []
    connected := false
    controls :=
      { productId := ""
        quantity := 1
        budgetEur := 330000
        desiredDeliveryDate := initialDeliveryDate } }

/-- Function `appendMessage` from `cascadeStore.tsx` lines 93-98:
`const next = [...prev, msg]; return next.length > MAX_MESSAGES ?
next.slice(-MAX_MESSAGES) : next;`.  JavaScript `slice(-C)` on an array
longer than `C` keeps the last `C` elements, i.e. drops
`next.length - C` from the front. -/
def appendMessage (prev : List LiveMessage) (msg : LiveMessage) : List LiveMessage :=
  let next := prev ++ [msg]
  if next.length > MAX_MESSAGES then next.drop (next.length - MAX_MESSAGES) else next

/-- The messages buffer after appending a sequence of events to an empty
buffer, one `appendMessage` call per event. -/
def messagesAfter (evs : List LiveMessage) : List LiveMessage :=
  evs.foldl appendMessage []

lemma appendMessage_eq_drop (prev : List LiveMessage) (msg : LiveMessage) :
    appendMessage prev msg = (prev ++ [msg]).drop ((prev ++ [msg]).length - MAX_MESSAGES) := by
  simp only [appendMessage]
  by_cases hc : (prev ++ [msg]).length > MAX_MESSAGES
  · rw [if_pos hc]
  · rw [if_neg hc]
    have hz : (prev ++ [msg]).length - MAX_MESSAGES = 0 := by
      simp only [List.length_append, List.length_cons, List.length_nil] at hc ⊢
      omega
    rw [hz, List.drop_zero]

lemma appendMessage_length_le (prev : List LiveMessage) (msg : LiveMessage) :
    (appendMessage prev msg).length ≤ MAX_MESSAGES := by
  rw [appendMessage_eq_drop prev msg]
  simp only [List.length_drop, List.length_append, List.length_cons, List.length_nil]
  omega

lemma foldl_appendMessage_eq_drop (evs : List LiveMessage) :
    ∀ prev : List LiveMessage, prev.length ≤ MAX_MESSAGES →
      List.foldl appendMessage prev evs
        = (prev ++ evs).drop ((prev ++ evs).length - MAX_MESSAGES) := by
  induction evs with
  | nil =>
      intro prev h
      simp only [List.foldl_nil, List.append_nil]
      have hz : prev.length - MAX_MESSAGES = 0 := by omega
      rw [hz, List.drop_zero]
  | cons e evs ih =>
      intro prev _
      simp only [List.foldl_cons]
      rw [ih (appendMessage prev e) (appendMessage_length_le prev e)]
      rw [appendMessage_eq_drop prev e]
      have hkle : (prev ++ [e]).length - MAX_MESSAGES ≤ (prev ++ [e]).length :=
        Nat.sub_le _ _
      rw [← List.drop_append_of_le_length hkle, List.drop_drop]
      have harr : (prev ++ [e]) ++ evs = prev ++ e :: evs := by
        simp
      rw [harr]
      have hidx : (prev ++ [e]).length - MAX_MESSAGES
            + ((List.drop ((prev ++ [e]).length - MAX_MESSAGES) (prev ++ e :: evs)).length
                - MAX_MESSAGES)
          = (prev ++ e :: evs).length - MAX_MESSAGES := by
        simp only [List.length_drop, List.length_append, List.length_cons, List.length_nil]
        omega
      rw [hidx]

lemma messagesAfter_eq_drop (evs : List LiveMessage) :
    messagesAfter evs = evs.drop (evs.length - MAX_MESSAGES) := by
  unfold messagesAfter
  have := foldl_appendMessage_eq_drop evs [] (by simp [MAX_MESSAGES])
  simpa using this

/-- C1 (Bounded buffer): for every sequence of `N` events appended via
`appendMessage` with capacity `C = MAX_MESSAGES = 120`, the messages buffer
contains exactly `min N C` events, and those events are the most recent
`min N C` appended events in arrival order (the suffix of the appended
sequence obtained by dropping the oldest `N - C` entries).  Since this holds
for every event list, it holds at every intermediate point of any run. -/
theorem c1_bounded_buffer :
    MAX_MESSAGES = 120 ∧
    ∀ evs : List LiveMessage,
      (messagesAfter evs).length = min evs.length MAX_MESSAGES ∧
      messagesAfter evs = evs.drop (evs.length - MAX_MESSAGES) := by
  refine ⟨rfl, fun evs => ⟨?_, messagesAfter_eq_drop evs⟩⟩
  rw [messagesAfter_eq_drop evs]
  simp only [List.length_drop]
  omega

/-! ### Trigger request body (`Dashboard.tsx` `handleTrigger`, lines 77-84) -/

/-- The JSON body of the `POST /registry/trigger` request
(`triggerCascade` params in `api/client.ts`). -/
structure TriggerBody where
  intent : Option String
  budget_eur : Int
  product_id : Option String
  quantity : Int
  desired_delivery_date : Option String
deriving DecidableEq, Repr

/-- The fallback intent string used by `handleTrigger` when no product is
selected. -/
def DEFAULT_INTENT : String := "Buy all parts required to assemble one Ferrari 296 GTB"

/-- The request body built by `handleTrigger` in `Dashboard.tsx`:
`hasProduct = Boolean(selectedProductId)` (an empty string is falsy);
`quantity: Math.max(1, quantity)`;
`desired_delivery_date: desiredDeliveryDate || undefined` (empty string
becomes `undefined`). -/
def triggerBody (c : ControlsState) : TriggerBody :=
  let hasProduct : Bool := c.productId != ""
  { intent := if hasProduct then none else some DEFAULT_INTENT
    budget_eur := c.budgetEur
    product_id := if hasProduct then some c.productId else none
    quantity := max 1 c.quantity
    desired_delivery_date :=
      if c.desiredDeliveryDate = "" then none else some c.desiredDeliveryDate }

/-- C10 (Implicit quantity clamp): for every controls state, the trigger
request body carries `quantity = max 1 controls.quantity`, hence the POSTed
quantity is at least `1` even when the stored controls hold a zero or
negative quantity. -/
theorem c10_quantity_clamp :
    ∀ c : ControlsState,
      (triggerBody c).quantity = max 1 c.quantity ∧ 1 ≤ (triggerBody c).quantity := by
  intro c
  constructor
  · rfl
  · show 1 ≤ max 1 c.quantity
    exact le_max_left 1 c.quantity

/-! ### Auto-reconnect effect (`cascadeStore.tsx` lines 152-156) -/

/-- The guard of the reconnect effect in `CascadeProvider`:
`if (progress.running && !connected) connectStream();`.  Returns whether the
effect invokes `connectStream`. -/
def reconnectEffectFires (s : StoreState) : Bool :=
  s.progress.running && !s.connected

/-- Running the reconnect effect, tracking whether a Stream Client
connection attempt has been made: `connectStream` (lines 102-115) always
issues `subscribeToStream`, i.e. makes a connection attempt, so the flag
becomes true whenever the effect fires. -/
def runReconnectEffect (s : StoreState) (attemptedBefore : Bool) : Bool :=
  if reconnectEffectFires s then true else attemptedBefore

/-- C6 (Auto-reconnect): whenever `progress.running == true` and
`connected == false`, the store invokes `connectStream` (the effect guard
fires); consequently, after the effect has run, `progress.running == true`
implies a stream connection attempt has been made or a connection is
active. -/
theorem c6_auto_reconnect :
    (∀ s : StoreState, s.progress.running = true → s.connected = false →
        reconnectEffectFires s = true) ∧
    (∀ (s : StoreState) (a : Bool), s.progress.running = true →
        runReconnectEffect s a = true ∨ s.connected = true) := by
  constructor
  · intro s hr hc
    simp [reconnectEffectFires, hr, hc]
  · intro s a hr
    by_cases hc : s.connected = true
    · exact Or.inr hc
    · left
      have hc' : s.connected = false := by
        cases h : s.connected
        · rfl
        · exact absurd h hc
      simp [runReconnectEffect, reconnectEffectFires, hr, hc']

/-- Witness for `c6_auto_reconnect`: a concrete running, disconnected
state. -/
theorem c6_auto_reconnect_witness :
    reconnectEffectFires
        { initialState ("2026-01-01") with
            progress := { running := true, progress := 10 } } = true ∧
    (runReconnectEffect
        { initialState ("2026-01-01") with
            progress := { running := true, progress := 10 } } false = true ∨
      ({ initialState ("2026-01-01") with
            progress := { running := true, progress := 10 } } : StoreState).connected
          = true) := by
  exact ⟨c6_auto_reconnect.1 _ rfl rfl, c6_auto_reconnect.2 _ false rfl⟩

/-! ### Stream frame handling (`api/client.ts` `subscribeToStream`, lines 97-113) -/

/-- The result of `JSON.parse(event.data)` on one inbound transport frame:
either a parse failure (the `catch` branch) or a parsed `LiveMessage`
payload. -/
inductive FrameParse where
  | malformed : FrameParse
  | parsed : LiveMessage → FrameParse
deriving DecidableEq, Repr

/-- Outcome of the `es.onmessage` handler for one frame: the list of
payloads forwarded to the `onMessage` consumer, and whether any error
escaped the handler (the `try/catch` swallows parse errors, and the other
paths return normally). -/
structure FrameOutcome where
  forwarded : List LiveMessage
  errorPropagated : Bool
deriving DecidableEq, Repr

/-- The `es.onmessage` handler of `subscribeToStream`: parse failures are
discarded by the `catch`; a parsed payload with `type == "heartbeat"` is
dropped by the early `return`; any other parsed payload is passed to
`onMessage` exactly once. -/
def handleStreamFrame : FrameParse → FrameOutcome
  | .malformed => { forwarded := [], errorPropagated := false }
  | .parsed data =>
      if data.type = "heartbeat" then { forwarded := [], errorPropagated := false }
      else { forwarded := [data], errorPropagated := false }

/-- C7 (Stream frame filtering): a frame whose payload fails to parse is
discarded silently (nothing forwarded, no error propagated); a parsed
payload with `type == "heartbeat"` is discarded without forwarding; every
other successfully parsed payload is forwarded to the `onMessage` consumer
exactly once. -/
theorem c7_stream_frame_filtering :
    handleStreamFrame .malformed = { forwarded := [], errorPropagated := false } ∧
    (∀ data : LiveMessage, data.type = "heartbeat" →
        handleStreamFrame (.parsed data)
          = { forwarded := [], errorPropagated := false }) ∧
    (∀ data : LiveMessage, data.type ≠ "heartbeat" →
        handleStreamFrame (.parsed data)
          = { forwarded := [data], errorPropagated := false }) := by
  refine ⟨rfl, ?_, ?_⟩
  · intro data hd
    simp [handleStreamFrame, hd]
  · intro data hd
    simp [handleStreamFrame, hd]

/-- A sample `LiveMessage` of a given type, for concrete evaluations. -/
def sampleMsg (t : String) : LiveMessage :=
  { message_id := "m-1"
    timestamp := "2026-01-01T00:00:00Z"
    from_id := "agent-a"
    from_label := "Agent A"
    to_id := "agent-b"
    to_label := "Agent B"
    type := t
    summary := "sample"
    detail := "sample detail"
    color := none
    icon := none }

/-- Witness for `c7_stream_frame_filtering`: a concrete heartbeat frame is
dropped and a concrete `"discovery"` frame is forwarded exactly once. -/
theorem c7_stream_frame_filtering_witness :
    handleStreamFrame (.parsed (sampleMsg ("heartbeat")))
        = { forwarded := [], errorPropagated := false } ∧
    handleStreamFrame (.parsed (sampleMsg ("discovery")))
        = { forwarded := [sampleMsg ("discovery")], errorPropagated := false } := by
  exact ⟨c7_stream_frame_filtering.2.1 (sampleMsg ("heartbeat")) rfl,
    c7_stream_frame_filtering.2.2 (sampleMsg ("discovery")) (by decide)⟩

/-! ### Persistence substrate (`cascadeStore.tsx` lines 40-71, 123-129, 135-150) -/

/-- The object serialized by `writeStorage` (lines 51-71): exactly the four
fields `progress`, `report`, `messages`, `controls`; `report` may be
`null`. -/
structure PersistedSnapshot where
  progress : CascadeProgress
  report : Option CascadeReport
  messages : List LiveMessage
  controls : ControlsState
deriving DecidableEq, Repr

/-- Function `writeStorage` (lines 51-71): projects the store state onto the four
persisted fields and serializes them under `STORAGE_KEY`.  JSON
serialization of these plain records is modelled as the identity on their
structured values. -/
def writeStorage (s : StoreState) : PersistedSnapshot :=
  { progress := s.progress
    report := s.report
    messages := s.messages
    controls := s.controls }

/-- An arbitrary value parsed back from the substrate
(`JSON.parse` of the stored string): every field may be missing.  For the
`report` field, presence and JSON `null` are distinguished
(`some none` = present but `null`), because `onStorage` tests
`next.report !== undefined` while the rehydration effect tests truthiness.
An object-typed field that is absent, `null`, or otherwise falsy is
modelled as `none`. -/
structure StoredValue where
  progress : Option CascadeProgress
  report : Option (Option CascadeReport)
  messages : Option (List LiveMessage)
  controls : Option ControlsState
deriving DecidableEq, Repr

/-- Parsing back what `writeStorage` wrote: all four fields are present
(a `null` report parses to a present-but-null field). -/
def snapshotToStored (snap : PersistedSnapshot) : StoredValue :=
  { progress := some snap.progress
    report := some snap.report
    messages := some snap.messages
    controls := some snap.controls }

/-- The rehydration effect of `CascadeProvider` (lines 123-129):
`const stored = readStorage(); if (stored?.progress) setProgress(...);
if (stored?.report) setReport(...); if (stored?.messages) setMessages(...);
if (stored?.controls) setControlsState(...)`.  JavaScript truthiness: a
present object or array is truthy (including an empty array), a present
`null` report is falsy and therefore skipped. -/
def rehydrate (init : StoreState) (stored : Option StoredValue) : StoreState :=
  match stored with
  | none => init
  | some v =>
      let s1 := match v.progress with
        | some p => { init with progress := p }
        | none => init
      let s2 := match v.report with
        | some (some r) => { s1 with report := some r }
        | _ => s1
      let s3 := match v.messages with
        | some ms => { s2 with messages := ms }
        | none => s2
      match v.controls with
      | some c => { s3 with controls := c }
      | none => s3

/-- The `onStorage` handler (lines 135-150): returns early unless
`event.key === STORAGE_KEY` and `event.newValue` is a non-empty,
parseable string (an empty or unparseable payload is modelled as `none`);
then adopts `progress`/`messages`/`controls` when truthy and `report`
whenever it is not `undefined` (so an incoming `null` report IS adopted). -/
def onStorage (b : StoreState) (key : String) (newValue : Option StoredValue) : StoreState :=
  if key = STORAGE_KEY then
    match newValue with
    | none => b
    | some v =>
        let s1 := match v.progress with
          | some p => { b with progress := p }
          | none => b
        let s2 := match v.report with
          | some rep => { s1 with report := rep }
          | none => s1
        let s3 := match v.messages with
          | some ms => { s2 with messages := ms }
          | none => s2
        match v.controls with
        | some c => { s3 with controls := c }
        | none => s3
  else b

/-- C8 (Rehydration round-trip): writing any store state's snapshot to
the substrate, discarding the in-memory store, and constructing a new store
(arbitrary initial delivery date) that reads the same key yields a state
whose `progress`, `report`, `messages` and `controls` equal the original's
field for field.  A `null` report is skipped by the truthiness check, but
the fresh store's report is already `null`, so the report round-trips as
well. -/
theorem c8_rehydration_round_trip :
    ∀ (s : StoreState) (d : String),
      (rehydrate (initialState d) (some (snapshotToStored (writeStorage s)))).progress
          = s.progress ∧
      (rehydrate (initialState d) (some (snapshotToStored (writeStorage s)))).report
          = s.report ∧
      (rehydrate (initialState d) (some (snapshotToStored (writeStorage s)))).messages
          = s.messages ∧
      (rehydrate (initialState d) (some (snapshotToStored (writeStorage s)))).controls
          = s.controls := by
  intro s d
  cases hr : s.report with
  | none =>
      refine ⟨?_, ?_, ?_, ?_⟩ <;>
        simp [rehydrate, snapshotToStored, writeStorage, initialState, hr]
  | some rep =>
      refine ⟨?_, ?_, ?_, ?_⟩ <;>
        simp [rehydrate, snapshotToStored, writeStorage, initialState, hr]

lemma onStorage_adopts (a b : StoreState) :
    (onStorage b STORAGE_KEY (some (snapshotToStored (writeStorage a)))).progress
        = a.progress ∧
    (onStorage b STORAGE_KEY (some (snapshotToStored (writeStorage a)))).report
        = a.report ∧
    (onStorage b STORAGE_KEY (some (snapshotToStored (writeStorage a)))).messages
        = a.messages ∧
    (onStorage b STORAGE_KEY (some (snapshotToStored (writeStorage a)))).controls
        = a.controls := by
  refine ⟨?_, ?_, ?_, ?_⟩ <;>
    simp [onStorage, snapshotToStored, writeStorage]

/-- C9 (Cross-context convergence): if store `A` writes its snapshot and
the storage-change notification delivers it to store `B` under the shared
key, then `B` adopts `A`'s `progress`, `report`, `messages` and `controls`
wholesale — including a `null` report — so `B`'s persisted-snapshot state
equals `A`'s after the one notification. -/
theorem c9_cross_context_convergence :
    ∀ a b : StoreState,
      (onStorage b STORAGE_KEY (some (snapshotToStored (writeStorage a)))).progress
          = a.progress ∧
      (onStorage b STORAGE_KEY (some (snapshotToStored (writeStorage a)))).report
          = a.report ∧
      (onStorage b STORAGE_KEY (some (snapshotToStored (writeStorage a)))).messages
          = a.messages ∧
      (onStorage b STORAGE_KEY (some (snapshotToStored (writeStorage a)))).controls
          = a.controls := by
  intro a b
  exact onStorage_adopts a b

/-! ### Trigger operation (`Dashboard.tsx` `handleTrigger`, lines 72-92) -/

/-- Function `handleTrigger` from `Dashboard.tsx`: before the start call it runs
`setReport(null)` and `clear()` (the store's `clearMessages`); then it
awaits `api.triggerCascade(...)`.  On success it runs
`setProgress({ running: true, progress: 0 })` and `connect()`; on failure
the `catch` block only logs (`console.error`) — no error escapes the
handler.  The returned boolean records whether an error was propagated to
the caller (always `false`). -/
def handleTrigger (s : StoreState) (startCallSucceeds : Bool) : StoreState × Bool :=
  let cleared := { s with report := none, messages := ([] : List LiveMessage) }
  if startCallSucceeds then
    ({ cleared with progress := { running := true, progress := 0 } }, false)
  else
    (cleared, false)

/-- A concrete pre-trigger state holding a previous report and one
buffered message. -/
def preTriggerState : StoreState :=
  { initialState ("2026-01-01") with
      report := some { data := "previous-report" }
      messages := [sampleMsg ("discovery")] }

/-- C3 counterexample: from the concrete state `preTriggerState`
(report present, one buffered message), a trigger whose start call fails
does NOT leave the observable state equal to the pre-trigger state — the
report has been cleared and the messages buffer emptied before the start
call — and no trigger error is surfaced to the caller (the handler
resolves normally).  This refutes the claim as stated. -/
theorem c3_counterexample :
    (handleTrigger preTriggerState false).1 ≠ preTriggerState ∧
    (handleTrigger preTriggerState false).1.report = none ∧
    preTriggerState.report = some { data := "previous-report" } ∧
    (handleTrigger preTriggerState false).2 = false := by
  refine ⟨?_, rfl, rfl, rfl⟩
  intro h
  have hrep : (handleTrigger preTriggerState false).1.report = preTriggerState.report := by
    rw [h]
  simp [handleTrigger, preTriggerState, initialState] at hrep

/-- C3 amended: if the start call issued by the trigger operation
errors, the operation leaves `progress`, `connected` and `controls`
unchanged (so no partial running state is left behind and an idle state
stays idle), but it does NOT restore `report` and `messages`: both were
cleared before the start call (`report = null`, `messages = []`), and the
error is logged rather than surfaced to the caller. -/
theorem c3_trigger_failure :
    ∀ s : StoreState,
      (handleTrigger s false).1.progress = s.progress ∧
      (handleTrigger s false).1.connected = s.connected ∧
      (handleTrigger s false).1.controls = s.controls ∧
      (handleTrigger s false).1.report = none ∧
      (handleTrigger s false).1.messages = [] ∧
      (handleTrigger s false).2 = false := by
  intro s
  refine ⟨rfl, rfl, rfl, rfl, rfl, rfl⟩

/-! ### State-machine legality (`cascadeStore.tsx`, `Dashboard.tsx`) -/

/-- The legality invariant claimed by the spec: a report only exists for a
completed cascade. -/
def legal (s : StoreState) : Prop :=
  s.report = none ∨ s.progress.running = false

instance (s : StoreState) : Decidable (legal s) := by
  unfold legal
  infer_instance

/-- The store state together with the number of `api.getReport()` promises
currently in flight.  The terminal poll tick issues
`api.getReport().then(setReport).catch(() => {})` (`Dashboard.tsx` line
60) and nothing ever cancels that promise: its `then` callback runs in a
later event-loop turn, possibly after further operations — in particular
after a re-trigger. -/
structure FlowState where
  store : StoreState
  pendingReportFetches : Nat
deriving DecidableEq, Repr

/-- One event-loop turn of the Dashboard/store flow, as the code performs
it: a trigger (success or failure, `handleTrigger`; the pending report
promise, if any, survives — nothing cancels it), a progress-poll tick
while running (`setProgress` with the fetched snapshot; a failed fetch is
swallowed), the terminal poll tick (snapshot with `running = false`,
which clears the interval and issues the report fetch — the fetch itself
resolves in a LATER turn), the deferred resolution of a pending report
fetch (`then(setReport)`, unguarded) or its failure (`catch(() => {})`),
an event append, a clear, a controls update, or a connected-flag change
from the stream callbacks. -/
inductive FlowStep : FlowState → FlowState → Prop where
  | trigger (t : FlowState) (ok : Bool) :
      FlowStep t ⟨(handleTrigger t.store ok).1, t.pendingReportFetches⟩
  | pollOk (t : FlowState) (p : CascadeProgress)
      (hrun : t.store.progress.running = true) (hp : p.running = true) :
      FlowStep t ⟨{ t.store with progress := p }, t.pendingReportFetches⟩
  | pollErr (t : FlowState) (hrun : t.store.progress.running = true) :
      FlowStep t t
  | pollDone (t : FlowState) (p : CascadeProgress)
      (hrun : t.store.progress.running = true) (hp : p.running = false) :
      FlowStep t ⟨{ t.store with progress := p }, t.pendingReportFetches + 1⟩
  | reportResolves (t : FlowState) (r : CascadeReport)
      (hpend : 0 < t.pendingReportFetches) :
      FlowStep t ⟨{ t.store with report := some r }, t.pendingReportFetches - 1⟩
  | reportFails (t : FlowState) (hpend : 0 < t.pendingReportFetches) :
      FlowStep t ⟨t.store, t.pendingReportFetches - 1⟩
  | append (t : FlowState) (m : LiveMessage) :
      FlowStep t ⟨{ t.store with messages := appendMessage t.store.messages m },
        t.pendingReportFetches⟩
  | clearMsgs (t : FlowState) :
      FlowStep t ⟨{ t.store with messages := [] }, t.pendingReportFetches⟩
  | setCtrls (t : FlowState) (c : ControlsState) :
      FlowStep t ⟨{ t.store with controls := c }, t.pendingReportFetches⟩
  | connFlag (t : FlowState) (b : Bool) :
      FlowStep t ⟨{ t.store with connected := b }, t.pendingReportFetches⟩

/-- A stored value whose own fields already satisfy the legality invariant:
it does not carry both a non-null report and a running progress. -/
def storedLegal (v : StoredValue) : Bool :=
  match v.report, v.progress with
  | some (some _), some p => !p.running
  | _, _ => true

/-- A concrete illegal persisted snapshot: running progress together with a
non-null report. -/
def badStored : StoredValue :=
  { progress := some { running := true, progress := 50 }
    report := some (some { data := "stale-report" })
    messages := some []
    controls := none }

/-- C2 counterexample: rehydrating a fresh store from the concrete
persisted snapshot `badStored` (which holds `running = true` together with
a non-null report — the code adopts both fields wholesale) yields a state
with `report ≠ null` and `progress.running = true` simultaneously, so the
claimed invariant does not survive rehydration from an arbitrary persisted
snapshot. -/
theorem c2_counterexample :
    (rehydrate (initialState ("2026-01-01")) (some badStored)).report
        = some { data := "stale-report" } ∧
    (rehydrate (initialState ("2026-01-01")) (some badStored)).progress.running = true ∧
    ¬ legal (rehydrate (initialState ("2026-01-01")) (some badStored)) := by
  refine ⟨rfl, rfl, ?_⟩
  intro h
  cases h with
  | inl h => simp [rehydrate, badStored, initialState] at h
  | inr h => simp [rehydrate, badStored, initialState] at h

/-- Stage 0 of the stale-report interleaving: a fresh store, no pending
report fetch. -/
def c2s0 : FlowState := ⟨initialState ("2026-01-01"), 0⟩

/-- Stage 1: the user triggers a cascade (start call succeeds):
`running = true`, `report = null`. -/
def c2s1 : FlowState := ⟨(handleTrigger c2s0.store true).1, c2s0.pendingReportFetches⟩

/-- Stage 2: the terminal poll tick observes `running = false` at 100% and
issues the report fetch, which is now in flight. -/
def c2s2 : FlowState :=
  ⟨{ c2s1.store with progress := { running := false, progress := 100 } },
    c2s1.pendingReportFetches + 1⟩

/-- Stage 3: the user re-triggers before the report fetch resolves:
`running = true` again, the fetch is still pending (nothing cancels it). -/
def c2s3 : FlowState := ⟨(handleTrigger c2s2.store true).1, c2s2.pendingReportFetches⟩

/-- Stage 4: the stale report fetch resolves and `setReport` installs a
non-null report while `running = true` — the illegal state. -/
def c2s4 : FlowState :=
  ⟨{ c2s3.store with report := some { data := "stale-report" } },
    c2s3.pendingReportFetches - 1⟩

/-- C2 amended: every flow operation from a state satisfying the legality
invariant either preserves it or is the deferred report install
(`then(setReport)`) resolving while `running = true` — and that exception
is reachable: the concrete trace `c2s0 → c2s1 → c2s2 → c2s3 → c2s4`
(trigger, terminal poll tick, re-trigger, stale report resolution) leads
from a legal state to an illegal one through flow operations only, so the
invariant does NOT hold after every operation.  A report install that
lands while `running = false` preserves the invariant; rehydration
preserves it exactly when the persisted snapshot itself satisfies it; and
a cross-context storage merge of a snapshot written by a legal store
preserves it.  It does NOT hold after rehydration from an arbitrary
persisted snapshot (see the counterexample). -/
theorem c2_legality :
    (∀ t t' : FlowState, legal t.store → FlowStep t t' →
        legal t'.store ∨
          (t.store.progress.running = true ∧ t'.store.progress.running = true ∧
            t'.store.report ≠ none)) ∧
    (FlowStep c2s0 c2s1 ∧ FlowStep c2s1 c2s2 ∧ FlowStep c2s2 c2s3 ∧
      FlowStep c2s3 c2s4 ∧ legal c2s0.store ∧ ¬ legal c2s4.store) ∧
    (∀ (s : StoreState) (r : CascadeReport), s.progress.running = false →
        legal { s with report := some r }) ∧
    (∀ (d : String) (v : StoredValue), storedLegal v = true →
        legal (rehydrate (initialState d) (some v))) ∧
    (∀ a b : StoreState, legal a →
        legal (onStorage b STORAGE_KEY (some (snapshotToStored (writeStorage a))))) := by
  refine ⟨?_, ?_, ?_, ?_, ?_⟩
  · intro t t' hs hstep
    cases hstep with
    | trigger ok =>
        left
        left
        cases ok <;> rfl
    | pollOk p hrun hp =>
        cases hs with
        | inl h => left; left; exact h
        | inr h => rw [hrun] at h; exact absurd h (by decide)
    | pollErr hrun => left; exact hs
    | pollDone p hrun hp =>
        left
        right
        exact hp
    | reportResolves r hpend =>
        cases hr : t.store.progress.running with
        | false =>
            left
            right
            exact hr
        | true =>
            right
            exact ⟨rfl, rfl, by simp⟩
    | reportFails hpend => left; exact hs
    | append m => left; exact hs
    | clearMsgs => left; exact hs
    | setCtrls c => left; exact hs
    | connFlag b => left; exact hs
  · refine ⟨FlowStep.trigger c2s0 true, ?_, FlowStep.trigger c2s2 true, ?_, ?_, ?_⟩
    · exact FlowStep.pollDone c2s1 { running := false, progress := 100 } rfl rfl
    · exact FlowStep.reportResolves c2s3 { data := "stale-report" } (by decide)
    · exact Or.inl rfl
    · intro h
      cases h with
      | inl h =>
          simp [c2s4, c2s3, c2s2, c2s1, c2s0, handleTrigger, initialState] at h
      | inr h =>
          simp [c2s4, c2s3, c2s2, c2s1, c2s0, handleTrigger, initialState] at h
  · intro s r hr
    right
    exact hr
  · intro d v hv
    obtain ⟨vp, vr, vm, vc⟩ := v
    cases vr with
    | none =>
        cases vp <;> cases vm <;> cases vc <;>
          simp [legal, rehydrate, initialState]
    | some rep =>
        cases rep with
        | none =>
            cases vp <;> cases vm <;> cases vc <;>
              simp [legal, rehydrate, initialState]
        | some r =>
            cases vp with
            | none =>
                cases vm <;> cases vc <;>
                  simp [legal, rehydrate, initialState]
            | some p =>
                have hp : p.running = false := by
                  simpa [storedLegal] using hv
                cases vm <;> cases vc <;>
                  simp [legal, rehydrate, initialState, hp]
  · intro a b ha
    have h := onStorage_adopts a b
    cases ha with
    | inl hrep =>
        left
        rw [h.2.1, hrep]
    | inr hrun =>
        right
        rw [h.1, hrun]

/-- Witness for `c2_legality`: a concrete legal state stepped by a
successful trigger satisfies the step disjunction; a report installed at a
concrete non-running state keeps the state legal; a concrete legal stored
value rehydrates to a legal state; a concrete merge from a legal writer
stays legal. -/
theorem c2_legality_witness :
    (legal c2s1.store ∨
      (c2s0.store.progress.running = true ∧ c2s1.store.progress.running = true ∧
        c2s1.store.report ≠ none)) ∧
    legal { initialState ("2026-01-05") with report := some { data := "fresh-report" } } ∧
    legal (rehydrate (initialState ("2026-01-02"))
      (some (snapshotToStored (writeStorage preTriggerState)))) ∧
    legal (onStorage (initialState ("2026-01-03")) STORAGE_KEY
      (some (snapshotToStored (writeStorage (initialState ("2026-01-04")))))) := by
  refine ⟨?_, ?_, ?_, ?_⟩
  · exact c2_legality.1 c2s0 c2s1 (by decide) (FlowStep.trigger c2s0 true)
  · exact c2_legality.2.2.1 (initialState ("2026-01-05")) { data := "fresh-report" } rfl
  · exact c2_legality.2.2.2.1 ("2026-01-02")
      (snapshotToStored (writeStorage preTriggerState)) (by decide)
  · exact c2_legality.2.2.2.2 (initialState ("2026-01-04")) (initialState ("2026-01-03"))
      (by decide)

/-! ### Progress poller (`Dashboard.tsx` poll effect, lines 53-70) -/

/-- The `setInterval` period of the poll effect: `}, 1000);`. -/
def POLL_INTERVAL_MS : Nat := 1000

/-- The activation guard of the poll effect:
`if (!progress.running) return;` — the loop exists only while
`progress.running` is true. -/
def pollerActive (s : StoreState) : Bool :=
  s.progress.running

/-- The outcome of one interval tick's `api.getProgress()` call: a thrown
error (the `catch` branch) or a fetched snapshot. -/
inductive TickResult where
  | fail : TickResult
  | ok : CascadeProgress → TickResult
deriving DecidableEq, Repr

/-- The polling loop of the Dashboard poll effect, run against a script of
tick outcomes.  Each consumed script entry is one progress poll.  A failed
poll is swallowed (`catch {}`) and the loop continues on the next tick.  A
successful snapshot is installed via `setProgress(p)`; if `p.running` is
false the interval is cleared (the remainder of the script is never
polled) and exactly one `api.getReport()` fetch is issued, whose success
installs the report via `setReport` and whose failure is absorbed
(`catch(() => {})`).  Returns the final store state, the number of
progress polls performed, and the number of report fetches issued. -/
def runPoller (script : List TickResult) (s : StoreState)
    (reportFetch : Option CascadeReport) : StoreState × Nat × Nat :=
  match script with
  | [] => (s, 0, 0)
  | .fail :: rest =>
      let out := runPoller rest s reportFetch
      (out.1, out.2.1 + 1, out.2.2)
  | .ok p :: rest =>
      let s1 := { s with progress := p }
      if p.running then
        let out := runPoller rest s1 reportFetch
        (out.1, out.2.1 + 1, out.2.2)
      else
        ({ s1 with
           report := (match reportFetch with | some r => some r | none => s1.report) },
         1, 1)

lemma runPoller_terminal (ts : List CascadeProgress)
    (hall : ∀ p ∈ ts, p.running = true) (f : CascadeProgress)
    (hf : f.running = false) (rest : List TickResult) (s : StoreState)
    (r : Option CascadeReport) :
    runPoller (ts.map TickResult.ok ++ TickResult.ok f :: rest) s r
      = ({ s with
           progress := f
           report := (match r with | some rr => some rr | none => s.report) },
         ts.length + 1, 1) := by
  induction ts generalizing s with
  | nil =>
      simp only [List.map_nil, List.nil_append, runPoller, hf]
      simp
  | cons p ts ih =>
      have hp : p.running = true := hall p (List.mem_cons_self p ts)
      have hall' : ∀ q ∈ ts, q.running = true := fun q hq => hall q (List.mem_cons_of_mem p hq)
      simp only [List.map_cons, List.cons_append, runPoller, hp, if_true, List.append_eq]
      rw [ih hall' { s with progress := p }]
      simp

/-- C5 (Poller termination): the polling loop runs at the fixed
1000ms interval and is active exactly while `progress.running` is true; a
failed poll is swallowed, leaving the state and report-fetch count
unchanged while the loop retries on the next tick; and for a progress
source reporting `running = true` on ticks `1..k` and `running = false` on
tick `k+1`, the loop installs each successful snapshot via `setProgress`
(ending with the terminal snapshot), performs exactly `k+1` progress
polls, issues exactly one report fetch, and never polls the remainder of
the schedule. -/
theorem c5_poller_termination :
    POLL_INTERVAL_MS = 1000 ∧
    (∀ s : StoreState, pollerActive s = s.progress.running) ∧
    (∀ (script : List TickResult) (s : StoreState) (r : Option CascadeReport),
        runPoller (TickResult.fail :: script) s r
          = ((runPoller script s r).1,
             (runPoller script s r).2.1 + 1,
             (runPoller script s r).2.2)) ∧
    (∀ (ts : List CascadeProgress), (∀ p ∈ ts, p.running = true) →
      ∀ (f : CascadeProgress), f.running = false →
      ∀ (rest : List TickResult) (s : StoreState) (r : Option CascadeReport),
        runPoller (ts.map TickResult.ok ++ TickResult.ok f :: rest) s r
          = ({ s with
               progress := f
               report := (match r with | some rr => some rr | none => s.report) },
             ts.length + 1, 1)) := by
  refine ⟨rfl, fun s => rfl, fun script s r => rfl, ?_⟩
  intro ts hall f hf rest s r
  exact runPoller_terminal ts hall f hf rest s r

/-- Witness for `c5_poller_termination`: a concrete two-tick script
(`running` at 40%, then finished at 100%) followed by a stray extra tick
that is never polled: two progress polls, one report fetch, report
installed. -/
theorem c5_poller_termination_witness :
    runPoller
        [TickResult.ok { running := true, progress := 40 },
         TickResult.ok { running := false, progress := 100 },
         TickResult.ok { running := true, progress := 40 }]
        (initialState ("2026-01-01")) (some { data := "final-report" })
      = ({ initialState ("2026-01-01") with
           progress := { running := false, progress := 100 }
           report := some { data := "final-report" } },
         2, 1) := by
  have h := c5_poller_termination.2.2.2
      [{ running := true, progress := 40 }] (by decide)
      { running := false, progress := 100 } (by decide)
      [TickResult.ok { running := true, progress := 40 }]
      (initialState ("2026-01-01")) (some { data := "final-report" })
  simpa using h

/-! ### Terminal report fetch and retry (`Dashboard.tsx` line 60,
`src/unnamed/part_008` `loadReport`, lines 73-87) -/

/-- The `setTimeout` delay of the retry in `loadReport`
(`src/unnamed/part_008`): `}, 2000);`. -/
def RETRY_DELAY_MS : Nat := 2000

/-- The Dashboard poller's terminal report fetch
(`api.getReport().then(setReport).catch(() => {})`, `Dashboard.tsx` line
60): one attempt; success installs the report, failure is absorbed with no
retry.  Returns the resulting report state and the number of fetch
attempts. -/
def dashboardReportFetch (result : Option CascadeReport)
    (current : Option CascadeReport) : Option CascadeReport × Nat :=
  ((match result with | some r => some r | none => current), 1)

/-- Function `loadReport` from `src/unnamed/part_008`: try `fetchReport()`; on
success install the data (one attempt); on failure schedule one retry via
`setTimeout(..., 2000)`; the retry installs on success and only logs on a
second failure.  Returns the resulting report state and the number of
fetch attempts. -/
def loadReport (first second : Option CascadeReport)
    (current : Option CascadeReport) : Option CascadeReport × Nat :=
  match first with
  | some d => (some d, 1)
  | none =>
      match second with
      | some d => (some d, 2)
      | none => (current, 2)

/-- C4 counterexample: in the Dashboard poller, a failed terminal
report fetch is NOT retried: at the concrete input where the fetch fails
and no report is stored, exactly one attempt is made (not the two attempts
that "retried exactly once" requires), and the stored report is left
unchanged. -/
theorem c4_counterexample :
    (dashboardReportFetch none none).2 = 1 ∧
    (dashboardReportFetch none none).2 ≠ 2 ∧
    (dashboardReportFetch none none).1 = none := by
  refine ⟨rfl, ?_, rfl⟩
  decide

/-- C4 amended: the retry behavior belongs to the legacy App poller's
`loadReport` (`src/unnamed/part_008`): there, a failed terminal report
fetch is retried exactly once after the fixed 2000ms delay (two attempts
in total whenever the first fails), a failure of the retry as well leaves
the stored report unchanged (absorbed silently), and a first success makes
exactly one attempt; the Dashboard poller instead issues the terminal
fetch once and absorbs a failure with no retry and no state change. -/
theorem c4_terminal_report_retry :
    RETRY_DELAY_MS = 2000 ∧
    (∀ second current : Option CascadeReport,
        (loadReport none second current).2 = 2) ∧
    (∀ current : Option CascadeReport, loadReport none none current = (current, 2)) ∧
    (∀ (d : CascadeReport) (second current : Option CascadeReport),
        loadReport (some d) second current = (some d, 1)) ∧
    (∀ current : Option CascadeReport, dashboardReportFetch none current = (current, 1)) := by
  refine ⟨rfl, ?_, fun current => rfl, fun d second current => rfl, fun current => rfl⟩
  intro second current
  cases second <;> rfl

end SupplyChainer
